import Mathlib

/-!
Verification of the type-descriptor / type-bridge module (`src/singer_sdk/typing.py`)
and the catalog-driven stream orchestrator (`src/tap_base/tap_base.py`).

JSON values are modelled by the inductive `JVal`; Python dicts are association
lists (`PyDict`) with insertion-order-preserving update semantics (`assocSet`),
matching Python `dict.__setitem__` / `dict.update`: an existing key keeps its
position and gets the new value, a new key is appended at the end.
-/

set_option maxHeartbeats 1000000

/-- JSON value: string, integer, boolean, null, array, or object.
Objects are insertion-ordered association lists, as Python dicts are. -/
inductive JVal where
  | s (v : String)
  | i (v : Int)
  | b (v : Bool)
  | null
  | arr (vs : List JVal)
  | obj (d : List (String × JVal))
deriving Repr

mutual

/-- Decidable equality on JSON values (hand-rolled: `deriving` does not handle
the nested lists). -/
def JVal.decEq : (a b : JVal) → Decidable (a = b)
  | .s x, .s y =>
    match String.decEq x y with
    | isTrue h => isTrue (by rw [h])
    | isFalse h => isFalse (fun hc => h (JVal.s.inj hc))
  | .i x, .i y =>
    match Int.decEq x y with
    | isTrue h => isTrue (by rw [h])
    | isFalse h => isFalse (fun hc => h (JVal.i.inj hc))
  | .b x, .b y =>
    match Bool.decEq x y with
    | isTrue h => isTrue (by rw [h])
    | isFalse h => isFalse (fun hc => h (JVal.b.inj hc))
  | .null, .null => isTrue rfl
  | .arr xs, .arr ys =>
    match JVal.decEqList xs ys with
    | isTrue h => isTrue (by rw [h])
    | isFalse h => isFalse (fun hc => h (JVal.arr.inj hc))
  | .obj xs, .obj ys =>
    match JVal.decEqPairs xs ys with
    | isTrue h => isTrue (by rw [h])
    | isFalse h => isFalse (fun hc => h (JVal.obj.inj hc))
  | .s _, .i _ => isFalse (fun hc => JVal.noConfusion hc)
  | .s _, .b _ => isFalse (fun hc => JVal.noConfusion hc)
  | .s _, .null => isFalse (fun hc => JVal.noConfusion hc)
  | .s _, .arr _ => isFalse (fun hc => JVal.noConfusion hc)
  | .s _, .obj _ => isFalse (fun hc => JVal.noConfusion hc)
  | .i _, .s _ => isFalse (fun hc => JVal.noConfusion hc)
  | .i _, .b _ => isFalse (fun hc => JVal.noConfusion hc)
  | .i _, .null => isFalse (fun hc => JVal.noConfusion hc)
  | .i _, .arr _ => isFalse (fun hc => JVal.noConfusion hc)
  | .i _, .obj _ => isFalse (fun hc => JVal.noConfusion hc)
  | .b _, .s _ => isFalse (fun hc => JVal.noConfusion hc)
  | .b _, .i _ => isFalse (fun hc => JVal.noConfusion hc)
  | .b _, .null => isFalse (fun hc => JVal.noConfusion hc)
  | .b _, .arr _ => isFalse (fun hc => JVal.noConfusion hc)
  | .b _, .obj _ => isFalse (fun hc => JVal.noConfusion hc)
  | .null, .s _ => isFalse (fun hc => JVal.noConfusion hc)
  | .null, .i _ => isFalse (fun hc => JVal.noConfusion hc)
  | .null, .b _ => isFalse (fun hc => JVal.noConfusion hc)
  | .null, .arr _ => isFalse (fun hc => JVal.noConfusion hc)
  | .null, .obj _ => isFalse (fun hc => JVal.noConfusion hc)
  | .arr _, .s _ => isFalse (fun hc => JVal.noConfusion hc)
  | .arr _, .i _ => isFalse (fun hc => JVal.noConfusion hc)
  | .arr _, .b _ => isFalse (fun hc => JVal.noConfusion hc)
  | .arr _, .null => isFalse (fun hc => JVal.noConfusion hc)
  | .arr _, .obj _ => isFalse (fun hc => JVal.noConfusion hc)
  | .obj _, .s _ => isFalse (fun hc => JVal.noConfusion hc)
  | .obj _, .i _ => isFalse (fun hc => JVal.noConfusion hc)
  | .obj _, .b _ => isFalse (fun hc => JVal.noConfusion hc)
  | .obj _, .null => isFalse (fun hc => JVal.noConfusion hc)
  | .obj _, .arr _ => isFalse (fun hc => JVal.noConfusion hc)

/-- Decidable equality on lists of JSON values. -/
def JVal.decEqList : (a b : List JVal) → Decidable (a = b)
  | [], [] => isTrue rfl
  | [], _ :: _ => isFalse (fun hc => List.noConfusion hc)
  | _ :: _, [] => isFalse (fun hc => List.noConfusion hc)
  | x :: xs, y :: ys =>
    match JVal.decEq x y with
    | isFalse h1 => isFalse (fun hc => h1 (List.cons.inj hc).1)
    | isTrue h1 =>
      match JVal.decEqList xs ys with
      | isTrue h2 => isTrue (by rw [h1, h2])
      | isFalse h2 => isFalse (fun hc => h2 (List.cons.inj hc).2)

/-- Decidable equality on association lists of JSON values. -/
def JVal.decEqPairs : (a b : List (String × JVal)) → Decidable (a = b)
  | [], [] => isTrue rfl
  | [], _ :: _ => isFalse (fun hc => List.noConfusion hc)
  | _ :: _, [] => isFalse (fun hc => List.noConfusion hc)
  | (k1, v1) :: xs, (k2, v2) :: ys =>
    match String.decEq k1 k2 with
    | isFalse h1 => isFalse (fun hc => h1 (congrArg (fun l => (l.headD ("", JVal.null)).1) hc))
    | isTrue h1 =>
      match JVal.decEq v1 v2 with
      | isFalse h2 => isFalse (fun hc => h2 (congrArg (fun l => (l.headD ("", JVal.null)).2) hc))
      | isTrue h2 =>
        match JVal.decEqPairs xs ys with
        | isTrue h3 => isTrue (by rw [h1, h2, h3])
        | isFalse h3 => isFalse (fun hc => h3 (List.cons.inj hc).2)

end

instance : DecidableEq JVal := JVal.decEq

/-- A Python dict with JSON values: an insertion-ordered association list. -/
abbrev PyDict := List (String × JVal)

/-- Lookup in an association list: value of the first entry with the given key
(Python `d[k]` / `d.get(k)` on a dict, which has unique keys). -/
def assocGet {α : Type} : List (String × α) → String → Option α
  | [], _ => none
  | (k', v') :: rest, k => if k' == k then some v' else assocGet rest k

/-- Key-membership test for an association list (Python `k in d`). -/
def containsKey {α : Type} : List (String × α) → String → Bool
  | [], _ => false
  | (k', _) :: rest, k => k' == k || containsKey rest k

/-- Python `d[k] = v` on a dict: an existing key keeps its position and
receives the new value, a new key is appended at the end (a Python dict has
unique keys, so replacing the first occurrence is replacing the only one). -/
def assocSet {α : Type} : List (String × α) → String → α → List (String × α)
  | [], k, v => [(k, v)]
  | (k', v') :: rest, k, v =>
    if k' == k then (k, v) :: rest else (k', v') :: assocSet rest k v

/-- Python truthiness of a JSON value: `None`, `False`, `0`, `""`, `[]` and
`\x7b\x7d` are falsy, everything else truthy. -/
def pyTruthy : JVal → Bool
  | .s v => v != ""
  | .i v => v != 0
  | .b v => v
  | .null => false
  | .arr vs => !vs.isEmpty
  | .obj d => !d.isEmpty

/-- Infix test on lists with boolean equality. -/
def listIsInfixOf (needle : List Char) : List Char → Bool
  | [] => needle.isEmpty
  | c :: rest => needle.isPrefixOf (c :: rest) || listIsInfixOf needle rest

/-- Substring test, Python `needle in hay` on strings. -/
def strContains (hay needle : String) : Bool :=
  listIsInfixOf needle.data hay.data

/-- ASCII lowercase (Python `str.lower()` on the ASCII range, which covers SQL
type names); `String.toLower` itself runs through `String.mapAux`, which the
kernel cannot evaluate. -/
def strLower (s : String) : String :=
  ⟨s.data.map (fun c => if c.toNat ≥ 65 && c.toNat ≤ 90 then Char.ofNat (c.toNat + 32) else c)⟩

/-! ## Rendered type dictionaries of the primitive type helpers
(`DateTimeType.type_dict`, `DateType.type_dict`, `StringType.type_dict`,
`BooleanType.type_dict`, `IntegerType.type_dict`, `NumberType.type_dict`). -/

def datetime_type_dict : PyDict := [("type", .arr [.s "string"]), ("format", .s "date-time")]

def date_type_dict : PyDict := [("type", .arr [.s "string"]), ("format", .s "date")]

def string_type_dict : PyDict := [("type", .arr [.s "string"])]

def boolean_type_dict : PyDict := [("type", .arr [.s "boolean"])]

def integer_type_dict : PyDict := [("type", .arr [.s "integer"])]

def number_type_dict : PyDict := [("type", .arr [.s "number"])]

/-! ## `to_jsonschema_type` (src/singer_sdk/typing.py lines 328-379) -/

/-- The ordered `sqltype_lookup` table from `to_jsonschema_type`, in source
order: earlier mappings take precedence. -/
def sqltype_lookup : List (String × PyDict) :=
  [ ("timestamp", datetime_type_dict)
  , ("datetime", datetime_type_dict)
  , ("date", date_type_dict)
  , ("int", integer_type_dict)
  , ("number", number_type_dict)
  , ("decimal", number_type_dict)
  , ("double", number_type_dict)
  , ("float", number_type_dict)
  , ("string", string_type_dict)
  , ("text", string_type_dict)
  , ("char", string_type_dict)
  , ("bool", boolean_type_dict)
  , ("variant", string_type_dict)
  ]

/-- The lookup loop of `to_jsonschema_type`: first table entry whose (already
lowercase) key occurs as a substring of the lowercased type name. -/
def lookupSqltype : List (String × PyDict) → String → Option PyDict
  | [], _ => none
  | (k, v) :: rest, n => if strContains n k then some v else lookupSqltype rest n

/-- `to_jsonschema_type` on a string type name: ordered substring lookup with
fallthrough to the `"string"` entry (`sqltype_lookup["string"]`). -/
def to_jsonschema_type (from_type : String) : PyDict :=
  (lookupSqltype sqltype_lookup (strLower from_type)).getD string_type_dict

/-- The ordered match as the claim states it: `variant` grouped with the other
String entries, before `bool`. Differs from the source table, where `bool`
precedes `variant`. -/
def sqltype_lookup_claimed : List (String × PyDict) :=
  [ ("timestamp", datetime_type_dict)
  , ("datetime", datetime_type_dict)
  , ("date", date_type_dict)
  , ("int", integer_type_dict)
  , ("number", number_type_dict)
  , ("decimal", number_type_dict)
  , ("double", number_type_dict)
  , ("float", number_type_dict)
  , ("string", string_type_dict)
  , ("text", string_type_dict)
  , ("char", string_type_dict)
  , ("variant", string_type_dict)
  , ("bool", boolean_type_dict)
  ]

/-- The claim's reading of `to_jsonschema_type`: first match over the table
with `variant` before `bool`, no match falling back to String. -/
def to_jsonschema_type_claimed (from_type : String) : PyDict :=
  (lookupSqltype sqltype_lookup_claimed (strLower from_type)).getD string_type_dict

/-- `to_jsonschema_type` rewritten as an explicit decision chain in the source
table's order, with the source's fallback to the String type dict. -/
def to_jsonschema_type_ordered (from_type : String) : PyDict :=
  let n := (strLower from_type)
  if strContains n "timestamp" then datetime_type_dict
  else if strContains n "datetime" then datetime_type_dict
  else if strContains n "date" then date_type_dict
  else if strContains n "int" then integer_type_dict
  else if strContains n "number" then number_type_dict
  else if strContains n "decimal" then number_type_dict
  else if strContains n "double" then number_type_dict
  else if strContains n "float" then number_type_dict
  else if strContains n "string" then string_type_dict
  else if strContains n "text" then string_type_dict
  else if strContains n "char" then string_type_dict
  else if strContains n "bool" then boolean_type_dict
  else if strContains n "variant" then string_type_dict
  else string_type_dict

/-! ## `_jsonschema_type_check` (src/singer_sdk/typing.py lines 382-404) -/

/-- Python `t in type_check` where `type_check` is a tuple of strings: true
exactly when `t` is a string equal to one of them (a dict or other value never
equals a string). -/
def valueInStrings (v : JVal) (typeCheck : List String) : Bool :=
  match v with
  | .s x => typeCheck.contains x
  | _ => false

/-- `_jsonschema_type_check(jsonschema_type, type_check)`: the `"type"` key is
consulted first (list of scalars, then bare scalar), then each element of
`"anyOf"` is compared — by Python equality — against the type strings, so a
sub-schema dict in `anyOf` can never match. A non-list `anyOf` value is
treated as matching nothing. -/
def jsonschema_type_check (jsonschemaType : PyDict) (typeCheck : List String) : Bool :=
  (match assocGet jsonschemaType "type" with
   | some (.arr ts) => ts.any (fun t => valueInStrings t typeCheck)
   | some v => valueInStrings v typeCheck
   | none => false)
  || (match assocGet jsonschemaType "anyOf" with
      | some (.arr es) => es.any (fun t => valueInStrings t typeCheck)
      | _ => false)

/-- The membership test as the claim states it: the kind also matches when it
appears in the `"type"` declaration of an `anyOf` sub-schema. -/
def jsonschema_supports_claimed (jsonschemaType : PyDict) (typeCheck : List String) : Bool :=
  (match assocGet jsonschemaType "type" with
   | some (.arr ts) => ts.any (fun t => valueInStrings t typeCheck)
   | some v => valueInStrings v typeCheck
   | none => false)
  || (match assocGet jsonschemaType "anyOf" with
      | some (.arr es) => es.any (fun e =>
          match e with
          | .obj sub =>
            (match assocGet sub "type" with
             | some (.arr ts) => ts.any (fun t => valueInStrings t typeCheck)
             | some v => valueInStrings v typeCheck
             | none => false)
          | other => valueInStrings other typeCheck)
      | _ => false)

/-! ## `get_datelike_property_type` -/

/-- Modelled from the spec: `singer_sdk.helpers._typing.get_datelike_property_type`
is not under src/ (only its tests are, in src/tests/core/test_record_typing.py).
A schema's format annotation is date-like when it is one of `"date-time"`,
`"time"`, `"date"`. -/
def datelikeFormat (d : PyDict) : Option String :=
  match assocGet d "format" with
  | some (.s f) => if f == "date-time" || f == "time" || f == "date" then some f else none
  | _ => none

/-- Modelled from the spec: a schema is a string with a date-like format when
its `"type"` declares `"string"` (bare scalar or within a list) and its
`"format"` is date-like; matches the src tests (for example
`\x7b"type": ["null", "string"]\x7d` has no format and so is not date-like). -/
def isStringWithFormat (d : PyDict) : Bool :=
  (match assocGet d "type" with
   | some (.arr ts) => ts.contains (JVal.s "string")
   | some (.s x) => x == "string"
   | _ => false)
  && (datelikeFormat d).isSome

/-- Modelled from the spec: `get_datelike_property_type` returns the date-like
format of the schema itself, or of the first `anyOf` sub-schema that is a
string with a date-like format, else nothing — exactly the behavior pinned by
the src tests in src/tests/core/test_record_typing.py. -/
def get_datelike_property_type (d : PyDict) : Option String :=
  if isStringWithFormat d then datelikeFormat d
  else
    match assocGet d "anyOf" with
    | some (.arr es) =>
      es.findSome? (fun e =>
        match e with
        | .obj sub => if isStringWithFormat sub then datelikeFormat sub else none
        | _ => none)
    | _ => none

/-! ## `to_sql_type` (src/singer_sdk/typing.py lines 407-441) -/

/-- The relational column-type vocabulary produced by `to_sql_type`. -/
inductive SqlType where
  | DATETIME | TIME | DATE | VARCHAR | INTEGER | DECIMAL | BOOLEAN
deriving DecidableEq, Repr

/-- `to_sql_type`, translated branch by branch from the source, including the
source's `datelike_type in "time"` substring test on the second date-like
branch. -/
def to_sql_type (jsonschemaType : PyDict) : SqlType :=
  if jsonschema_type_check jsonschemaType ["string"] then
    match get_datelike_property_type jsonschemaType with
    | some dl =>
      if dl == "date-time" then .DATETIME
      else if strContains "time" dl then .TIME
      else if dl == "date" then .DATE
      else .VARCHAR
    | none => .VARCHAR
  else if jsonschema_type_check jsonschemaType ["integer"] then .INTEGER
  else if jsonschema_type_check jsonschemaType ["number"] then .DECIMAL
  else if jsonschema_type_check jsonschemaType ["boolean"] then .BOOLEAN
  else if jsonschema_type_check jsonschemaType ["object"] then .VARCHAR
  else if jsonschema_type_check jsonschemaType ["array"] then .VARCHAR
  else .VARCHAR

/-- `to_sql_type` as the spec words it: string-with-date-like-format maps
`date-time`, `date`, `time` to their column types; otherwise string, integer,
number, boolean in that order; object or array to VARCHAR; anything else to
VARCHAR. -/
def to_sql_type_spec (jsonschemaType : PyDict) : SqlType :=
  if jsonschema_type_check jsonschemaType ["string"] then
    match get_datelike_property_type jsonschemaType with
    | some "date-time" => .DATETIME
    | some "date" => .DATE
    | some "time" => .TIME
    | _ => .VARCHAR
  else if jsonschema_type_check jsonschemaType ["integer"] then .INTEGER
  else if jsonschema_type_check jsonschemaType ["number"] then .DECIMAL
  else if jsonschema_type_check jsonschemaType ["boolean"] then .BOOLEAN
  else if jsonschema_type_check jsonschemaType ["object"]
       || jsonschema_type_check jsonschemaType ["array"] then .VARCHAR
  else .VARCHAR

/-! ## Type descriptors (`JSONTypeHelper` hierarchy, src/singer_sdk/typing.py)

Rendering is modelled with explicit state passing: `CustomType` holds the very
dict object the caller supplied, and `Property.to_dict` mutates that dict in
place (through `dict.update`) when the property is required and carries a
default or description, so render returns both the rendered dict and the
descriptor as it is after the call. -/

mutual

/-- The `JSONTypeHelper` hierarchy: the six primitive helpers, `ArrayType`,
`ObjectType` and `CustomType` (src/singer_sdk/typing.py). -/
inductive JSONTypeHelper where
  | dateTimeType
  | dateType
  | stringType
  | booleanType
  | integerType
  | numberType
  | arrayType (wrappedType : JSONTypeHelper)
  | objectType (properties : PropList)
  | customType (jsonschemaTypeDict : PyDict)

/-- `Property(name, wrapped, required, default, description)`; the source
stores `optional = not required`. -/
inductive Property where
  | mk (name : String) (wrapped : JSONTypeHelper) (optional : Bool)
       (default : Option JVal) (description : Option String)

/-- The list of properties wrapped by an `ObjectType`. -/
inductive PropList where
  | nil
  | cons (p : Property) (ps : PropList)

end

def Property.name : Property → String
  | .mk n _ _ _ _ => n

def Property.wrapped : Property → JSONTypeHelper
  | .mk _ w _ _ _ => w

def Property.optional : Property → Bool
  | .mk _ _ o _ _ => o

def Property.default : Property → Option JVal
  | .mk _ _ _ d _ => d

def Property.description : Property → Option String
  | .mk _ _ _ _ d => d

/-- Modelled from the spec: `singer_sdk.helpers._typing.append_type` is not
under src/. Per the spec, a non-required property's type field — bare scalar
or list — is widened with `"null"` idempotently, so a type that already
includes `"null"` is left unchanged; per the spec's design notes the helpers
are plain pure functions of their input. A dict without a `"type"` field is
returned unchanged. -/
def append_type (typeDict : PyDict) (newType : String) : PyDict :=
  match assocGet typeDict "type" with
  | some (.arr ts) =>
    if JVal.s newType ∈ ts then typeDict
    else assocSet typeDict "type" (.arr (ts ++ [.s newType]))
  | some v =>
    if v = JVal.s newType then typeDict
    else assocSet typeDict "type" (.arr [v, .s newType])
  | none => typeDict

/-- The `if self.default:` step of `Property.to_dict`: a truthy default is
written into the type dict (`type_dict.update(...)`), a falsy or absent one is
skipped. -/
def applyDefault (td : PyDict) : Option JVal → PyDict
  | some v => if pyTruthy v then assocSet td "default" v else td
  | none => td

/-- The `if self.description:` step of `Property.to_dict`: a non-empty
description is written into the type dict, `None` or `""` is skipped. -/
def applyDescription (td : PyDict) : Option String → PyDict
  | some sv => if sv != "" then assocSet td "description" (.s sv) else td
  | none => td

/-- In-place mutation of the wrapped helper: only a `CustomType` exposes its
stored dict by alias from `type_dict`, so only there do the `update` calls of
`Property.to_dict` persist into the descriptor. -/
def writeBack : JSONTypeHelper → PyDict → JSONTypeHelper
  | .customType _, d => .customType d
  | w, _ => w

/-- Assembling `ObjectType.type_dict` from the rendered property pairs and the
required-name list: merge the pairs in order, then add `required` only when
non-empty. -/
def objResult (pr : List (String × PyDict) × List String) : PyDict :=
  let merged := pr.1.foldl (fun m nv => assocSet m nv.1 (JVal.obj nv.2)) []
  let base : PyDict := [("type", .s "object"), ("properties", .obj merged)]
  if pr.2 = [] then base else base ++ [("required", .arr (pr.2.map JVal.s))]

mutual

/-- `type_dict` of a helper, with the post-call state of the helper
(`ObjectType.type_dict` renders its properties via `Property.to_dict`, which
can mutate nested custom dicts). -/
def typeDictSt : JSONTypeHelper → PyDict × JSONTypeHelper
  | .dateTimeType => (datetime_type_dict, .dateTimeType)
  | .dateType => (date_type_dict, .dateType)
  | .stringType => (string_type_dict, .stringType)
  | .booleanType => (boolean_type_dict, .booleanType)
  | .integerType => (integer_type_dict, .integerType)
  | .numberType => (number_type_dict, .numberType)
  | .arrayType w =>
    ([("type", .s "array"), ("items", .obj (typeDictSt w).1)], .arrayType (typeDictSt w).2)
  | .objectType ps =>
    (objResult (propsRenderSt ps).1, .objectType (propsRenderSt ps).2)
  | .customType d => (d, .customType d)

/-- `Property.to_dict` (src/singer_sdk/typing.py lines 241-254): renders the
wrapped type, widens it with `"null"` when the property is optional, then
appends `default` and `description` when truthy; returns the
`name -> type_dict` pair and the property's post-call state. -/
def propToDictSt : Property → (String × PyDict) × Property
  | .mk name w opt dflt desc =>
    if opt then
      ((name, applyDescription (applyDefault (append_type (typeDictSt w).1 "null") dflt) desc),
       .mk name (typeDictSt w).2 opt dflt desc)
    else
      ((name, applyDescription (applyDefault (typeDictSt w).1 dflt) desc),
       .mk name
         (writeBack (typeDictSt w).2 (applyDescription (applyDefault (typeDictSt w).1 dflt) desc))
         opt dflt desc)

/-- The property loop of `ObjectType.type_dict`: renders each property in
order, collecting the `name -> dict` pairs and the required names of the
non-optional properties, in insertion order. -/
def propsRenderSt : PropList → (List (String × PyDict) × List String) × PropList
  | .nil => (([], []), .nil)
  | .cons p ps =>
    (((propToDictSt p).1 :: (propsRenderSt ps).1.1,
      if p.optional then (propsRenderSt ps).1.2 else p.name :: (propsRenderSt ps).1.2),
     .cons (propToDictSt p).2 (propsRenderSt ps).2)

end

/-- Occurrences of the string `"null"` in a rendered type field. -/
def nullCount : Option JVal → Nat
  | some (.arr ts) => ts.count (JVal.s "null")
  | some v => if v = JVal.s "null" then 1 else 0
  | none => 0

/-- Well-formedness of a rendered type dict for the nullability property: a
`"type"` field is present, and when it is a list it mentions `"null"` at most
once (a caller-supplied dict already holding a duplicated `"null"` would keep
the duplicate). -/
def nullAtMostOnce (d : PyDict) : Bool :=
  match assocGet d "type" with
  | some (.arr ts) => Nat.ble (ts.count (JVal.s "null")) 1
  | some _ => true
  | none => false

/-! ## TapBase (src/tap_base/tap_base.py)

The class attribute `_streams: Dict[str, TapStreamBase] = \x7b\x7d` is only ever
mutated by item assignment (never rebound on an instance), so it is one shared
dict per process. It is modelled as an explicit `StreamMap` value threaded
through every operation; each `TapBase` instance contributes only its own
`_catalog`. Failures (`KeyError` from the dict lookup, the `RuntimeError` of
`_init_streams`) are modelled by `TapError`; the mutations performed before a
failure persist, so every operation returns the updated map alongside its
result. -/

/-- A catalog entry: the stream id plus its schema. -/
structure CatalogEntry where
  tap_stream_id : String
  schema : PyDict
deriving DecidableEq, Repr

/-- A stream runtime object (`TapStreamBase` is not under src/): the id and
catalog entry it is built from, plus its mutable bookmark state, empty at
construction (`_init_stream` always passes `state=None`). -/
structure TapStream where
  tap_stream_id : String
  catalog_entry : CatalogEntry
  state : Option Nat
deriving DecidableEq, Repr

/-- The shared class-level `TapBase._streams` dict. -/
abbrev StreamMap := List (String × TapStream)

/-- Errors raised by the orchestrator code: Python `KeyError` from
`self._streams[tap_stream_id]`, and the `RuntimeError` of `_init_streams`. -/
inductive TapError where
  | keyError (k : String)
  | runtimeError (msg : String)
deriving DecidableEq, Repr

/-- `TapBase._init_stream`: builds a fresh stream object and assigns it into
the shared dict — an existing entry with the same id is silently replaced in
place, a new id is appended. -/
def init_stream (streams : StreamMap) (tapStreamId : String) (entry : CatalogEntry)
    (st : Option Nat) : StreamMap :=
  assocSet streams tapStreamId ⟨tapStreamId, entry, st⟩

/-- `TapBase._init_streams` over an already-present catalog: one
`_init_stream` per catalog entry, in catalog order, each with `state=None`. -/
def init_streams (streams : StreamMap) (cat : List CatalogEntry) : StreamMap :=
  cat.foldl (fun m e => init_stream m e.tap_stream_id e none) streams

/-- `TapBase.init_catalog` with neither a loadable catalog file nor discovery:
when `_catalog` is unset, `_init_streams` raises
`RuntimeError("Catalog must be initialized before streams.")`; otherwise every
catalog stream is (re-)initialized into the shared dict. -/
def init_catalog (catalog : Option (List CatalogEntry)) (streams : StreamMap) :
    StreamMap × Except TapError Unit :=
  match catalog with
  | none => (streams, .error (.runtimeError "Catalog must be initialized before streams."))
  | some c => (init_streams streams c, .ok ())

/-- `TapBase.get_all_stream_ids`: re-initializes from the catalog, then lists
the keys of the shared dict. -/
def get_all_stream_ids (catalog : Option (List CatalogEntry)) (streams : StreamMap) :
    StreamMap × Except TapError (List String) :=
  match init_catalog catalog streams with
  | (m, .ok _) => (m, .ok (m.map Prod.fst))
  | (m, .error e) => (m, .error e)

/-- `TapBase.get_streams`: re-initializes from the catalog, then returns the
shared dict itself. -/
def get_streams (catalog : Option (List CatalogEntry)) (streams : StreamMap) :
    StreamMap × Except TapError StreamMap :=
  match init_catalog catalog streams with
  | (m, .ok _) => (m, .ok m)
  | (m, .error e) => (m, .error e)

/-- `TapBase.get_stream`: re-initializes from the catalog, then subscripts the
shared dict — an absent id raises Python `KeyError`. -/
def get_stream (catalog : Option (List CatalogEntry)) (streams : StreamMap)
    (tapStreamId : String) : StreamMap × Except TapError TapStream :=
  match init_catalog catalog streams with
  | (m, .ok _) =>
    match assocGet m tapStreamId with
    | some st => (m, .ok st)
    | none => (m, .error (.keyError tapStreamId))
  | (m, .error e) => (m, .error e)

/-- Modelled from the spec: `TapStreamBase.sync` is not under src/; per the
spec a stream's synchronization mutates its own bookmark state. -/
def sync_stream (st : TapStream) : TapStream :=
  { st with state := some (st.state.getD 0 + 1) }

/-- `TapBase.sync_one`: `get_stream` (which re-initializes every catalog
stream) followed by `stream.sync()` on the found stream. -/
def sync_one (catalog : Option (List CatalogEntry)) (streams : StreamMap)
    (tapStreamId : String) : StreamMap × Except TapError Unit :=
  match get_stream catalog streams tapStreamId with
  | (m, .ok st) => (assocSet m tapStreamId (sync_stream st), .ok ())
  | (m, .error e) => (m, .error e)

/-- `TapBase.sync_all`: iterates `get_streams().items()` in dict order and
calls `stream.sync()` on each; returns the sequence of visited stream ids. -/
def sync_all (catalog : Option (List CatalogEntry)) (streams : StreamMap) :
    StreamMap × Except TapError (List String) :=
  match get_streams catalog streams with
  | (m, .ok _) => (m.map (fun kv => (kv.1, sync_stream kv.2)), .ok (m.map Prod.fst))
  | (m, .error e) => (m, .error e)

/-- Modelled from the spec: `singer.Catalog.get_stream` is an external
collaborator (the `singer` library); the spec's CatalogStore lookup finds the
entry with the given stream id. -/
def catalog_get_stream (cat : List CatalogEntry) (tapStreamId : String) :
    Option CatalogEntry :=
  cat.find? (fun e => e.tap_stream_id == tapStreamId)

/-- `TapBase.get_catalog_entry` (src/tap_base/tap_base.py lines 131-132): the
body evaluates `self._catalog.get_stream(tap_stream_id)` but has no `return`
statement, so the method always returns `None` — despite its
`-> CatalogEntry` annotation. -/
def get_catalog_entry (cat : List CatalogEntry) (tapStreamId : String) :
    Option CatalogEntry :=
  let _ := catalog_get_stream cat tapStreamId
  none

/-! ## Association-list lemmas -/

theorem assocGet_assocSet_self {α : Type} (d : List (String × α)) (k : String) (v : α) :
    assocGet (assocSet d k v) k = some v := by
  induction d with
  | nil => simp [assocSet, assocGet]
  | cons hd tl ih =>
    obtain ⟨k₀, v₀⟩ := hd
    by_cases h : k₀ = k
    · subst h
      simp [assocSet, assocGet]
    · have hb : (k₀ == k) = false := beq_eq_false_iff_ne.mpr h
      simp [assocSet, assocGet, hb, ih]

theorem assocGet_assocSet_other {α : Type} (d : List (String × α)) (k k' : String)
    (v : α) (h : k ≠ k') : assocGet (assocSet d k' v) k = assocGet d k := by
  have hb' : (k' == k) = false := beq_eq_false_iff_ne.mpr (Ne.symm h)
  induction d with
  | nil => simp [assocSet, assocGet, hb']
  | cons hd tl ih =>
    obtain ⟨k₀, v₀⟩ := hd
    by_cases h0 : k₀ = k'
    · subst h0
      simp [assocSet, assocGet, hb']
    · have hb : (k₀ == k') = false := beq_eq_false_iff_ne.mpr h0
      simp [assocSet, assocGet, hb, ih]

theorem assocSet_assocSet_same {α : Type} (d : List (String × α)) (k : String) (v : α) :
    assocSet (assocSet d k v) k v = assocSet d k v := by
  induction d with
  | nil => simp [assocSet]
  | cons hd tl ih =>
    obtain ⟨k₀, v₀⟩ := hd
    by_cases h0 : k₀ = k
    · subst h0
      simp [assocSet]
    · have hb : (k₀ == k) = false := beq_eq_false_iff_ne.mpr h0
      simp [assocSet, hb, ih]

theorem assocSet_assocSet_skip {α : Type} (d : List (String × α)) (k k' : String)
    (v v' : α) (h : k ≠ k') :
    assocSet (assocSet (assocSet d k v) k' v') k v = assocSet (assocSet d k v) k' v' := by
  have hkk' : (k == k') = false := beq_eq_false_iff_ne.mpr h
  have hk'k : (k' == k) = false := beq_eq_false_iff_ne.mpr (Ne.symm h)
  induction d with
  | nil => simp [assocSet, hkk', hk'k]
  | cons hd tl ih =>
    obtain ⟨k₀, v₀⟩ := hd
    by_cases h0 : k₀ = k
    · subst h0
      simp [assocSet, hkk', hk'k]
    · have hb0 : (k₀ == k) = false := beq_eq_false_iff_ne.mpr h0
      by_cases h1 : k₀ = k'
      · subst h1
        simp [assocSet, hb0, assocSet_assocSet_same]
      · have hb1 : (k₀ == k') = false := beq_eq_false_iff_ne.mpr h1
        simp [assocSet, hb0, hb1, ih]

/-! ## Stability of repeated rendering -/

theorem setters_stable (c : PyDict) (dflt : Option JVal) (desc : Option String) :
    applyDescription (applyDefault (applyDescription (applyDefault c dflt) desc) dflt) desc
      = applyDescription (applyDefault c dflt) desc := by
  cases dflt with
  | none =>
    cases desc with
    | none => rfl
    | some sv =>
      by_cases hs : sv != ""
      · simp [applyDefault, applyDescription, hs, assocSet_assocSet_same]
      · simp [applyDefault, applyDescription, hs]
  | some v =>
    by_cases hv : pyTruthy v
    · cases desc with
      | none => simp [applyDefault, applyDescription, hv, assocSet_assocSet_same]
      | some sv =>
        by_cases hs : sv != ""
        · simp only [applyDefault, applyDescription, hv, hs, if_true, if_pos]
          rw [assocSet_assocSet_skip c "default" "description" v (JVal.s sv) (by decide)]
          rw [assocSet_assocSet_same]
        · simp [applyDefault, applyDescription, hv, hs, assocSet_assocSet_same]
    · cases desc with
      | none => simp [applyDefault, applyDescription, hv]
      | some sv =>
        by_cases hs : sv != ""
        · simp [applyDefault, applyDescription, hv, hs, assocSet_assocSet_same]
        · simp [applyDefault, applyDescription, hv, hs]

theorem writeBack_state (w : JSONTypeHelper) (hw : ∀ c, w ≠ .customType c) (d : PyDict) :
    writeBack (typeDictSt w).2 d = (typeDictSt w).2 := by
  cases w with
  | customType c => exact absurd rfl (hw c)
  | dateTimeType => rfl
  | dateType => rfl
  | stringType => rfl
  | booleanType => rfl
  | integerType => rfl
  | numberType => rfl
  | arrayType w' => rfl
  | objectType ps => rfl

theorem propToDictSt_optional (p : Property) :
    ((propToDictSt p).2).optional = p.optional := by
  cases p with
  | mk name w opt dflt desc => cases opt <;> simp [propToDictSt, Property.optional]

theorem propToDictSt_name (p : Property) :
    ((propToDictSt p).2).name = p.name := by
  cases p with
  | mk name w opt dflt desc => cases opt <;> simp [propToDictSt, Property.name]

mutual

theorem typeDictSt_fix : (t : JSONTypeHelper) → typeDictSt (typeDictSt t).2 = typeDictSt t
  | .dateTimeType => rfl
  | .dateType => rfl
  | .stringType => rfl
  | .booleanType => rfl
  | .integerType => rfl
  | .numberType => rfl
  | .arrayType w => by
    have ih := typeDictSt_fix w
    simp [typeDictSt, ih]
  | .objectType ps => by
    have ih := propsRenderSt_fix ps
    simp [typeDictSt, ih]
  | .customType d => rfl

theorem propToDictSt_fix : (p : Property) → propToDictSt (propToDictSt p).2 = propToDictSt p
  | .mk name w opt dflt desc => by
    have ih := typeDictSt_fix w
    cases opt with
    | true => simp [propToDictSt, ih]
    | false =>
      cases w with
      | customType c =>
        simp [propToDictSt, typeDictSt, writeBack, setters_stable]
      | dateTimeType =>
        have hwb := writeBack_state .dateTimeType (fun c hc => JSONTypeHelper.noConfusion hc)
        simp [propToDictSt, hwb, ih]
      | dateType =>
        have hwb := writeBack_state .dateType (fun c hc => JSONTypeHelper.noConfusion hc)
        simp [propToDictSt, hwb, ih]
      | stringType =>
        have hwb := writeBack_state .stringType (fun c hc => JSONTypeHelper.noConfusion hc)
        simp [propToDictSt, hwb, ih]
      | booleanType =>
        have hwb := writeBack_state .booleanType (fun c hc => JSONTypeHelper.noConfusion hc)
        simp [propToDictSt, hwb, ih]
      | integerType =>
        have hwb := writeBack_state .integerType (fun c hc => JSONTypeHelper.noConfusion hc)
        simp [propToDictSt, hwb, ih]
      | numberType =>
        have hwb := writeBack_state .numberType (fun c hc => JSONTypeHelper.noConfusion hc)
        simp [propToDictSt, hwb, ih]
      | arrayType w' =>
        have hwb := writeBack_state (.arrayType w') (fun c hc => JSONTypeHelper.noConfusion hc)
        simp [propToDictSt, hwb, ih]
      | objectType ps =>
        have hwb := writeBack_state (.objectType ps) (fun c hc => JSONTypeHelper.noConfusion hc)
        simp [propToDictSt, hwb, ih]

theorem propsRenderSt_fix : (ps : PropList) → propsRenderSt (propsRenderSt ps).2 = propsRenderSt ps
  | .nil => rfl
  | .cons p ps => by
    have ihp := propToDictSt_fix p
    have ihs := propsRenderSt_fix ps
    simp [propsRenderSt, ihp, ihs, propToDictSt_optional, propToDictSt_name]

end

/-! ## Nullability -/

theorem assocGet_applyDefault_type (td : PyDict) (o : Option JVal) :
    assocGet (applyDefault td o) "type" = assocGet td "type" := by
  cases o with
  | none => rfl
  | some v =>
    by_cases hv : pyTruthy v
    · simp [applyDefault, hv, assocGet_assocSet_other td "type" "default" v (by decide)]
    · simp [applyDefault, hv]

theorem assocGet_applyDescription_type (td : PyDict) (o : Option String) :
    assocGet (applyDescription td o) "type" = assocGet td "type" := by
  cases o with
  | none => rfl
  | some sv =>
    by_cases hs : sv != ""
    · simp [applyDescription, hs,
        assocGet_assocSet_other td "type" "description" (JVal.s sv) (by decide)]
    · simp [applyDescription, hs]

theorem count_pair_ne (v : JVal) (h : v ≠ JVal.s "null") :
    [v, JVal.s "null"].count (JVal.s "null") = 1 := by
  simp [List.count_cons, beq_eq_false_iff_ne.mpr h]

theorem nullCount_append_type (d : PyDict) (h : nullAtMostOnce d = true) :
    nullCount (assocGet (append_type d "null") "type") = 1 := by
  unfold nullAtMostOnce at h
  cases hg : assocGet d "type" with
  | none => rw [hg] at h; simp at h
  | some v =>
    rw [hg] at h
    cases v with
    | arr ts =>
      by_cases hm : JVal.s "null" ∈ ts
      · have h1 : ts.count (JVal.s "null") ≤ 1 := Nat.le_of_ble_eq_true h
        have h2 : ts.count (JVal.s "null") ≠ 0 := fun h0 => (List.count_eq_zero.mp h0) hm
        simp only [append_type, hg, hm, if_true, if_pos, nullCount]
        omega
      · have h0 : ts.count (JVal.s "null") = 0 := List.count_eq_zero.mpr hm
        simp [append_type, hg, hm, nullCount, assocGet_assocSet_self, h0]
    | s sv =>
      by_cases he : sv = "null"
      · subst he
        simp [append_type, hg, nullCount]
      · have hne : JVal.s sv ≠ JVal.s "null" := fun hc => he (JVal.s.inj hc)
        simp [append_type, hg, hne, nullCount, assocGet_assocSet_self, count_pair_ne _ hne]
    | i n =>
      have hne : JVal.i n ≠ JVal.s "null" := fun hc => JVal.noConfusion hc
      simp [append_type, hg, hne, nullCount, assocGet_assocSet_self, count_pair_ne _ hne]
    | b bv =>
      have hne : JVal.b bv ≠ JVal.s "null" := fun hc => JVal.noConfusion hc
      simp [append_type, hg, hne, nullCount, assocGet_assocSet_self, count_pair_ne _ hne]
    | null =>
      have hne : JVal.null ≠ JVal.s "null" := fun hc => JVal.noConfusion hc
      simp [append_type, hg, hne, nullCount, assocGet_assocSet_self, count_pair_ne _ hne]
    | obj od =>
      have hne : JVal.obj od ≠ JVal.s "null" := fun hc => JVal.noConfusion hc
      simp [append_type, hg, hne, nullCount, assocGet_assocSet_self, count_pair_ne _ hne]

theorem prop_null_once (p : Property) (hopt : p.optional = true)
    (h : nullAtMostOnce (typeDictSt p.wrapped).1 = true) :
    nullCount (assocGet (propToDictSt p).1.2 "type") = 1 := by
  cases p with
  | mk name w opt dflt desc =>
    simp only [Property.optional] at hopt
    subst hopt
    simp only [Property.wrapped] at h
    simp only [propToDictSt, if_pos]
    rw [assocGet_applyDescription_type, assocGet_applyDefault_type]
    exact nullCount_append_type _ h

/-! ## Orchestrator lemmas -/

theorem containsKey_iff {α : Type} (d : List (String × α)) (k : String) :
    containsKey d k = true ↔ k ∈ d.map Prod.fst := by
  induction d with
  | nil => simp [containsKey]
  | cons hd tl ih =>
    obtain ⟨k₀, v₀⟩ := hd
    by_cases h : k₀ = k
    · subst h
      simp [containsKey]
    · have hb : (k₀ == k) = false := beq_eq_false_iff_ne.mpr h
      simp [containsKey, hb, ih, h, Ne.symm h]

theorem keys_assocSet {α : Type} (d : List (String × α)) (k : String) (v : α) :
    (assocSet d k v).map Prod.fst
      = if containsKey d k then d.map Prod.fst else d.map Prod.fst ++ [k] := by
  induction d with
  | nil => simp [assocSet, containsKey]
  | cons hd tl ih =>
    obtain ⟨k₀, v₀⟩ := hd
    by_cases h : k₀ = k
    · subst h
      simp [assocSet, containsKey]
    · have hb : (k₀ == k) = false := beq_eq_false_iff_ne.mpr h
      by_cases hc : containsKey tl k
      · simp [assocSet, containsKey, hb, hc, ih]
      · simp [assocSet, containsKey, hb, hc, ih]

theorem init_streams_cons (m : StreamMap) (e : CatalogEntry) (es : List CatalogEntry) :
    init_streams m (e :: es) = init_streams (init_stream m e.tap_stream_id e none) es := rfl

theorem keys_init_streams (cat : List CatalogEntry) (m : StreamMap)
    (hdisj : ∀ e ∈ cat, containsKey m e.tap_stream_id = false)
    (hnodup : (cat.map CatalogEntry.tap_stream_id).Nodup) :
    (init_streams m cat).map Prod.fst
      = m.map Prod.fst ++ cat.map CatalogEntry.tap_stream_id := by
  induction cat generalizing m with
  | nil => simp [init_streams]
  | cons e es ih =>
    rw [init_streams_cons]
    have hde : containsKey m e.tap_stream_id = false := hdisj e (by simp)
    have hkeys : (init_stream m e.tap_stream_id e none).map Prod.fst
        = m.map Prod.fst ++ [e.tap_stream_id] := by
      simp [init_stream, keys_assocSet, hde]
    have hnd : (es.map CatalogEntry.tap_stream_id).Nodup := (List.nodup_cons.mp hnodup).2
    have hhd : e.tap_stream_id ∉ es.map CatalogEntry.tap_stream_id :=
      (List.nodup_cons.mp hnodup).1
    have hdisj' : ∀ e' ∈ es, containsKey (init_stream m e.tap_stream_id e none) e'.tap_stream_id = false := by
      intro e' he'
      have h1 : containsKey m e'.tap_stream_id = false := hdisj e' (by simp [he'])
      have h2 : e'.tap_stream_id ≠ e.tap_stream_id := by
        intro hc
        exact hhd (hc ▸ List.mem_map_of_mem CatalogEntry.tap_stream_id he')
      have h1' : e'.tap_stream_id ∉ List.map Prod.fst m := fun hmem =>
        absurd ((containsKey_iff m e'.tap_stream_id).mpr hmem) (by simp [h1])
      rw [← Bool.not_eq_true, containsKey_iff, hkeys]
      intro hc
      rcases List.mem_append.mp hc with hc1 | hc1
      · exact h1' hc1
      · exact h2 (List.mem_singleton.mp hc1)
    rw [ih _ hdisj' hnd, hkeys]
    simp

theorem assocGet_init_streams_not_mem (es : List CatalogEntry) (m : StreamMap) (sid : String)
    (h : sid ∉ es.map CatalogEntry.tap_stream_id) :
    assocGet (init_streams m es) sid = assocGet m sid := by
  induction es generalizing m with
  | nil => rfl
  | cons e es ih =>
    have h1 : sid ≠ e.tap_stream_id := by
      intro hc
      exact h (by simp [hc])
    have h2 : sid ∉ es.map CatalogEntry.tap_stream_id := by
      intro hc
      exact h (by simp [hc])
    rw [init_streams_cons, ih _ h2, init_stream,
      assocGet_assocSet_other m sid e.tap_stream_id _ h1]

theorem init_streams_state_none (cat : List CatalogEntry) (m : StreamMap) (sid : String)
    (h : sid ∈ cat.map CatalogEntry.tap_stream_id) :
    (assocGet (init_streams m cat) sid).map TapStream.state = some none := by
  induction cat generalizing m with
  | nil => simp at h
  | cons e es ih =>
    rw [init_streams_cons]
    by_cases hmem : sid ∈ es.map CatalogEntry.tap_stream_id
    · exact ih _ hmem
    · have h1 : sid = e.tap_stream_id := by
        rcases List.mem_cons.mp h with h1 | h1
        · exact h1
        · exact absurd h1 hmem
      subst h1
      rw [assocGet_init_streams_not_mem es _ _ hmem]
      simp [init_stream, assocGet_assocSet_self]

theorem mem_keys_init_streams (cat : List CatalogEntry) (m : StreamMap) (sid : String)
    (h : sid ∈ m.map Prod.fst) :
    sid ∈ (init_streams m cat).map Prod.fst := by
  induction cat generalizing m with
  | nil => exact h
  | cons e es ih =>
    rw [init_streams_cons]
    refine ih _ ?_
    rw [init_stream, keys_assocSet]
    by_cases hc : containsKey m e.tap_stream_id
    · simp [hc, h]
    · simp [hc, h]

/-! ## Type-bridge lemmas -/

theorem datelikeFormat_range (d : PyDict) (f : String) (h : datelikeFormat d = some f) :
    f = "date-time" ∨ f = "time" ∨ f = "date" := by
  unfold datelikeFormat at h
  split at h
  · next fv heq =>
    split at h
    · next hc =>
      obtain rfl := Option.some.inj h
      simp only [Bool.or_eq_true, beq_iff_eq] at hc
      tauto
    · exact absurd h (by simp)
  · exact absurd h (by simp)

theorem get_datelike_range (d : PyDict) (f : String)
    (h : get_datelike_property_type d = some f) :
    f = "date-time" ∨ f = "time" ∨ f = "date" := by
  unfold get_datelike_property_type at h
  split at h
  · exact datelikeFormat_range d f h
  · split at h
    · next es heq =>
      obtain ⟨e, he, hf⟩ := List.exists_of_findSome?_eq_some h
      cases e with
      | obj sub =>
        simp only at hf
        split at hf
        · exact datelikeFormat_range sub f hf
        · exact absurd hf (by simp)
      | s sv => exact absurd hf (by simp)
      | i n => exact absurd hf (by simp)
      | b bv => exact absurd hf (by simp)
      | null => exact absurd hf (by simp)
      | arr vs => exact absurd hf (by simp)
    · exact absurd h (by simp)

theorem to_sql_type_eq_spec (j : PyDict) : to_sql_type j = to_sql_type_spec j := by
  unfold to_sql_type to_sql_type_spec
  by_cases hstr : jsonschema_type_check j ["string"]
  · simp only [hstr, if_true, if_pos]
    cases hdl : get_datelike_property_type j with
    | none => rfl
    | some f =>
      rcases get_datelike_range j f hdl with rfl | rfl | rfl
      · rfl
      · rfl
      · rfl
  · by_cases hint : jsonschema_type_check j ["integer"]
    · simp [hstr, hint]
    · by_cases hnum : jsonschema_type_check j ["number"]
      · simp [hstr, hint, hnum]
      · by_cases hbool : jsonschema_type_check j ["boolean"]
        · simp [hstr, hint, hnum, hbool]
        · by_cases hobj : jsonschema_type_check j ["object"]
          · simp [hstr, hint, hnum, hbool, hobj]
          · by_cases harr : jsonschema_type_check j ["array"]
            · simp [hstr, hint, hnum, hbool, hobj, harr]
            · simp [hstr, hint, hnum, hbool, hobj, harr]

theorem to_jsonschema_type_eq_ordered (name : String) :
    to_jsonschema_type name = to_jsonschema_type_ordered name := by
  simp only [to_jsonschema_type, to_jsonschema_type_ordered, sqltype_lookup, lookupSqltype]
  by_cases h1 : strContains (strLower name) "timestamp" = true
  · simp [h1, if_true, if_false, Option.getD_some]
  · simp [h1, if_false]
    by_cases h2 : strContains (strLower name) "datetime" = true
    · simp [h1, h2, if_true, if_false, Option.getD_some]
    · simp [h2, if_false]
      by_cases h3 : strContains (strLower name) "date" = true
      · simp [h1, h2, h3, if_true, if_false, Option.getD_some]
      · simp [h3, if_false]
        by_cases h4 : strContains (strLower name) "int" = true
        · simp [h1, h2, h3, h4, if_true, if_false, Option.getD_some]
        · simp [h4, if_false]
          by_cases h5 : strContains (strLower name) "number" = true
          · simp [h1, h2, h3, h4, h5, if_true, if_false, Option.getD_some]
          · simp [h5, if_false]
            by_cases h6 : strContains (strLower name) "decimal" = true
            · simp [h1, h2, h3, h4, h5, h6, if_true, if_false, Option.getD_some]
            · simp [h6, if_false]
              by_cases h7 : strContains (strLower name) "double" = true
              · simp [h1, h2, h3, h4, h5, h6, h7, if_true, if_false, Option.getD_some]
              · simp [h7, if_false]
                by_cases h8 : strContains (strLower name) "float" = true
                · simp [h1, h2, h3, h4, h5, h6, h7, h8, if_true, if_false, Option.getD_some]
                · simp [h8, if_false]
                  by_cases h9 : strContains (strLower name) "string" = true
                  · simp [h1, h2, h3, h4, h5, h6, h7, h8, h9, if_true, if_false, Option.getD_some]
                  · simp [h9, if_false]
                    by_cases h10 : strContains (strLower name) "text" = true
                    · simp [h1, h2, h3, h4, h5, h6, h7, h8, h9, h10, if_true, if_false, Option.getD_some]
                    · simp [h10, if_false]
                      by_cases h11 : strContains (strLower name) "char" = true
                      · simp [h1, h2, h3, h4, h5, h6, h7, h8, h9, h10, h11, if_true, if_false, Option.getD_some]
                      · simp [h11, if_false]
                        by_cases h12 : strContains (strLower name) "bool" = true
                        · simp [h1, h2, h3, h4, h5, h6, h7, h8, h9, h10, h11, h12, if_true, if_false, Option.getD_some]
                        · simp [h12, if_false]
                          by_cases h13 : strContains (strLower name) "variant" = true
                          · simp [h1, h2, h3, h4, h5, h6, h7, h8, h9, h10, h11, h12, h13, if_true, if_false, Option.getD_some]
                          · simp [h1, h2, h3, h4, h5, h6, h7, h8, h9, h10, h11, h12, h13, if_true, if_false, Option.getD_some, Option.getD_none]

/-! ## Claim theorems -/

/-- C1: rendering is idempotent — re-rendering any type descriptor or any
property returns an identical dict and leaves the descriptor state fixed, so
render called N times returns the same dict each time — and a non-required
property's rendered type field mentions "null" exactly once no matter how many
times render runs, including when the wrapped type is a CustomType holding a
caller-supplied dict (whose rendered type field must name "null" at most once,
as every dict the library itself builds does). -/
theorem c1_render_idempotent_and_null_once :
    (∀ t : JSONTypeHelper, typeDictSt (typeDictSt t).2 = typeDictSt t) ∧
    (∀ p : Property, propToDictSt (propToDictSt p).2 = propToDictSt p) ∧
    (∀ p : Property, p.optional = true →
      nullAtMostOnce (typeDictSt p.wrapped).1 = true →
      nullCount (assocGet (propToDictSt p).1.2 "type") = 1) :=
  ⟨typeDictSt_fix, propToDictSt_fix, prop_null_once⟩

/-- C1 witness: the nullability conclusion at a concrete optional property
wrapping a caller-supplied CustomType dict. -/
theorem c1_render_idempotent_and_null_once_witness :
    nullCount (assocGet (propToDictSt (Property.mk "updated_on"
      (.customType [("type", .arr [.s "string"]), ("format", .s "date-time")])
      true none none)).1.2 "type") = 1 :=
  c1_render_idempotent_and_null_once.2.2
    (Property.mk "updated_on"
      (.customType [("type", .arr [.s "string"]), ("format", .s "date-time")])
      true none none) rfl (by decide)

/-- C2: to_sql_type classifies every JSON-schema dict exactly as the spec
orders it — string with a date-like format to DATETIME/DATE/TIME, otherwise
string to VARCHAR, integer to INTEGER, number to DECIMAL, boolean to BOOLEAN,
object or array to VARCHAR, anything unrecognized to VARCHAR — and in
particular the dict with type ["string","null"] and format "date" maps to
DATE, not VARCHAR. -/
theorem c2_to_sql_type_classification :
    (∀ j : PyDict, to_sql_type j = to_sql_type_spec j) ∧
    to_sql_type [("type", .arr [.s "string", .s "null"]), ("format", .s "date")]
      = .DATE :=
  ⟨to_sql_type_eq_spec, by rfl⟩

/-- C3 counterexample: the claim's ordered table — variant grouped with the
String entries before bool — disagrees with the code on the name
"variantbool": the source table checks bool before variant and returns the
Boolean type dict, while the claimed order returns the String type dict. -/
theorem c3_claimed_order_fails :
    to_jsonschema_type "variantbool" = boolean_type_dict ∧
    to_jsonschema_type_claimed "variantbool" = string_type_dict ∧
    to_jsonschema_type "variantbool" ≠ to_jsonschema_type_claimed "variantbool" := by
  refine ⟨rfl, rfl, by decide⟩

/-- C3 (amended): to_jsonschema_type is the ordered substring match over the
lowercased type name in the source order — timestamp, datetime, date, int,
number, decimal, double, float, string, text, char, bool, variant — first
match winning, no match mapping to the String dict; hence "timestamp_with_tz"
maps to the DateTime dict and never to Date, and a name matching no entry,
such as "guid", maps to the String dict. -/
theorem c3_ordered_substring_match :
    (∀ name : String, to_jsonschema_type name = to_jsonschema_type_ordered name) ∧
    to_jsonschema_type "timestamp_with_tz" = datetime_type_dict ∧
    to_jsonschema_type "guid" = string_type_dict :=
  ⟨to_jsonschema_type_eq_ordered, rfl, rfl⟩

/-- C4 (code bug): the anyOf arm of _jsonschema_type_check compares each
sub-schema dict against the type strings by equality and can never match, so
a schema declaring a kind only inside an anyOf sub-schema is not classified
as supporting that kind — while the spec-worded membership test accepts it —
and consequently to_sql_type sends the anyOf date-time schema exercised by
the src tests to VARCHAR even though get_datelike_property_type recognizes
its format. -/
theorem c4_anyof_subschema_never_matches :
    jsonschema_type_check [("anyOf", .arr [.obj [("type", .s "string")]])] ["string"]
      = false ∧
    jsonschema_supports_claimed [("anyOf", .arr [.obj [("type", .s "string")]])] ["string"]
      = true ∧
    get_datelike_property_type
      [("anyOf", .arr [.obj [("type", .s "string"), ("format", .s "date-time")],
                       .obj [("type", .s "null")]])] = some "date-time" ∧
    to_sql_type
      [("anyOf", .arr [.obj [("type", .s "string"), ("format", .s "date-time")],
                       .obj [("type", .s "null")]])] = .VARCHAR := by
  exact ⟨rfl, rfl, rfl, rfl⟩

/-- C5 (code bug): Property.to_dict drops a falsy default — rendering
Property("count", IntegerType, required=True, default=0) yields a dict with
no "default" key at all — while a truthy default is appended as the claim
describes. -/
theorem c5_falsy_default_dropped :
    (propToDictSt (Property.mk "count" .integerType false (some (.i 0)) none)).1
      = ("count", [("type", .arr [.s "integer"])]) ∧
    assocGet (propToDictSt
      (Property.mk "count" .integerType false (some (.i 0)) none)).1.2 "default"
      = none ∧
    assocGet (propToDictSt
      (Property.mk "count" .integerType false (some (.i 5)) none)).1.2 "default"
      = some (.i 5) := by
  exact ⟨rfl, rfl, rfl⟩

/-- C6: sync_all visits the streams strictly in catalog order — on a fresh
orchestrator (empty shared map), for a catalog with pairwise-distinct stream
ids, the sequence of synced streams equals the catalog's id sequence, so no
stream is visited twice, none is skipped and nothing interleaves. -/
theorem c6_sync_all_catalog_order (cat : List CatalogEntry)
    (hnodup : (cat.map CatalogEntry.tap_stream_id).Nodup) :
    (sync_all (some cat) []).2 = .ok (cat.map CatalogEntry.tap_stream_id) := by
  have hk := keys_init_streams cat [] (fun e _ => rfl) hnodup
  simp only [List.map_nil, List.nil_append] at hk
  unfold sync_all get_streams init_catalog
  simp [hk]

/-- C6 witness: the end-to-end catalog of the spec, streams "users" then
"orders", is visited in exactly that order. -/
theorem c6_sync_all_catalog_order_witness :
    (sync_all (some [⟨"users", []⟩, ⟨"orders", []⟩]) []).2 = .ok ["users", "orders"] :=
  c6_sync_all_catalog_order [⟨"users", []⟩, ⟨"orders", []⟩] (by decide)

/-- C7 counterexample: sync_one on the unknown id "b" fails with the dict
KeyError — no UnknownStreamError exists in the code — and the
re-initialization it performs first resets stream "a"'s in-memory state from
some 5 back to none, so the failure does not leave the other stream's state
untouched. -/
theorem c7_sync_one_unknown_resets_state :
    (sync_one (some [⟨"a", []⟩]) [("a", ⟨"a", ⟨"a", []⟩, some 5⟩)] "b").2
      = .error (.keyError "b") ∧
    assocGet (sync_one (some [⟨"a", []⟩]) [("a", ⟨"a", ⟨"a", []⟩, some 5⟩)] "b").1 "a"
      = some ⟨"a", ⟨"a", []⟩, none⟩ ∧
    (⟨"a", ⟨"a", []⟩, none⟩ : TapStream) ≠ ⟨"a", ⟨"a", []⟩, some 5⟩ := by
  refine ⟨rfl, rfl, by decide⟩

/-- C7 (amended): sync_one on an id absent from the re-initialized stream set
fails with KeyError(id); the failed call leaves the shared map equal to the
freshly re-initialized one, in which every catalog stream's in-memory state
has been reset to none rather than preserved. -/
theorem c7_sync_one_unknown_amended (cat : List CatalogEntry) (streams : StreamMap)
    (sid : String) (h : assocGet (init_streams streams cat) sid = none) :
    (sync_one (some cat) streams sid).2 = .error (.keyError sid) ∧
    (sync_one (some cat) streams sid).1 = init_streams streams cat ∧
    ∀ e ∈ cat, (assocGet (init_streams streams cat) e.tap_stream_id).map TapStream.state
      = some none := by
  refine ⟨?_, ?_, ?_⟩
  · unfold sync_one get_stream init_catalog
    simp [h]
  · unfold sync_one get_stream init_catalog
    simp [h]
  · intro e he
    exact init_streams_state_none cat streams e.tap_stream_id
      (List.mem_map_of_mem CatalogEntry.tap_stream_id he)

/-- C7 witness: the amended error conclusion at a concrete catalog, shared
map and unknown id. -/
theorem c7_sync_one_unknown_amended_witness :
    (sync_one (some [⟨"a", []⟩]) [("a", ⟨"a", ⟨"a", []⟩, some 5⟩)] "c").2
      = .error (.keyError "c") :=
  (c7_sync_one_unknown_amended [⟨"a", []⟩] [("a", ⟨"a", ⟨"a", []⟩, some 5⟩)]
    "c" (by decide)).1

/-- C8 counterexample: _init_stream with the already-present id "a" raises
nothing — there is no DuplicateStreamError anywhere in the code — and
silently replaces the existing entry, which is therefore changed, not left
unchanged. -/
theorem c8_duplicate_insert_replaces :
    init_stream [("a", ⟨"a", ⟨"a", []⟩, some 3⟩)] "a" ⟨"a", [("x", .null)]⟩ none
      = [("a", ⟨"a", ⟨"a", [("x", .null)]⟩, none⟩)] ∧
    (⟨"a", ⟨"a", [("x", .null)]⟩, none⟩ : TapStream) ≠ ⟨"a", ⟨"a", []⟩, some 3⟩ := by
  exact ⟨rfl, by decide⟩

/-- C8 (amended): _init_stream upserts — the new stream is bound to the id,
entries under other keys are untouched, and the key order is preserved (an
existing id keeps its position, a new id is appended); inserting a duplicate
id silently replaces the existing entry instead of failing. -/
theorem c8_init_stream_upserts (streams : StreamMap) (sid : String)
    (e : CatalogEntry) (st : Option Nat) :
    assocGet (init_stream streams sid e st) sid = some ⟨sid, e, st⟩ ∧
    (∀ k, k ≠ sid → assocGet (init_stream streams sid e st) k = assocGet streams k) ∧
    (init_stream streams sid e st).map Prod.fst
      = (if containsKey streams sid then streams.map Prod.fst
         else streams.map Prod.fst ++ [sid]) := by
  refine ⟨assocGet_assocSet_self streams sid _, ?_, keys_assocSet streams sid _⟩
  intro k hk
  exact assocGet_assocSet_other streams k sid _ hk

/-- C8 witness: the untouched-other-key conclusion at concrete inputs. -/
theorem c8_init_stream_upserts_witness :
    assocGet (init_stream [("a", ⟨"a", ⟨"a", []⟩, some 3⟩)] "a" ⟨"a", []⟩ none) "b"
      = assocGet [("a", (⟨"a", ⟨"a", []⟩, some 3⟩ : TapStream))] "b" :=
  (c8_init_stream_upserts [("a", ⟨"a", ⟨"a", []⟩, some 3⟩)] "a" ⟨"a", []⟩ none).2.1
    "b" (by decide)

/-- C9 (code bug): get_catalog_entry performs the catalog lookup but has no
return statement, so it returns None both when the id is present — though the
lookup itself finds the entry — and when it is absent, and it never raises
anything, contradicting its own CatalogEntry return annotation. -/
theorem c9_get_catalog_entry_always_none :
    catalog_get_stream [⟨"a", [("type", .s "object")]⟩] "a"
      = some ⟨"a", [("type", .s "object")]⟩ ∧
    get_catalog_entry [⟨"a", [("type", .s "object")]⟩] "a" = none ∧
    get_catalog_entry [⟨"a", [("type", .s "object")]⟩] "b" = none := by
  exact ⟨rfl, rfl, rfl⟩

/-- C10 counterexample: _streams is one class-level dict shared by every
TapBase instance — after an instance with catalog ["s"] initializes its
streams, a second instance with its own catalog ["t"] observes "s" through
its get_all_stream_ids and get_stream. -/
theorem c10_shared_class_stream_map :
    (get_all_stream_ids (some [⟨"t", []⟩]) ((get_streams (some [⟨"s", []⟩]) []).1)).2
      = .ok ["s", "t"] ∧
    (get_stream (some [⟨"t", []⟩]) ((get_streams (some [⟨"s", []⟩]) []).1) "s").2
      = .ok ⟨"s", ⟨"s", []⟩, none⟩ := by
  exact ⟨rfl, rfl⟩

/-- C10 (amended): the stream map is process-wide — any id present in the
shared dict stays observable through get_all_stream_ids of any instance,
whatever that instance's own catalog contains. -/
theorem c10_stream_map_process_wide (catB : List CatalogEntry) (shared : StreamMap)
    (sid : String) (h : sid ∈ shared.map Prod.fst) :
    ∃ ids, (get_all_stream_ids (some catB) shared).2 = .ok ids ∧ sid ∈ ids := by
  refine ⟨(init_streams shared catB).map Prod.fst, ?_,
    mem_keys_init_streams catB shared sid h⟩
  unfold get_all_stream_ids init_catalog
  simp

/-- C10 witness: the amended observability conclusion at a concrete shared
map and second-instance catalog. -/
theorem c10_stream_map_process_wide_witness :
    ∃ ids, (get_all_stream_ids (some [⟨"t", []⟩]) [("s", ⟨"s", ⟨"s", []⟩, none⟩)]).2
      = .ok ids ∧ "s" ∈ ids :=
  c10_stream_map_process_wide [⟨"t", []⟩] [("s", ⟨"s", ⟨"s", []⟩, none⟩)] "s"
    (by decide)
